import Mathlib

/-!
Shallow embedding of the telecom-churn-prediction pipeline.

`src/preprocessing.py` exposes `preprocess_input(input_df, scaler)`, operating on a
single-row pandas DataFrame.  We model the row as an ordered association list of
column names to cell values; a cell is `Option ℚ` where `none` models pandas NaN
(the result of `.map` on a value outside the mapping dictionary).  The raw input
record models the one-row frame built by `src/app.py`: the numeric cells
`tenure`, `MonthlyCharges`, `TotalCharges`, `SeniorCitizen` are `Option ℚ`, where
`some q` means the cell holds (or parses via `pd.to_numeric` to) the number `q`
and `none` means a value `pd.to_numeric` would raise on.
-/

namespace Churn

/-- A cell of the one-row frame: `none` models pandas NaN. -/
abbrev Val := Option ℚ

/-- The one-row frame: ordered columns, one cell each. -/
abbrev Row := List (String × Val)

/-- `name in df.columns`. -/
def hasCol (row : Row) (name : String) : Bool :=
  row.any (fun p => p.1 = name)

/-- `df[name].iloc[0]` (first matching column; `none` when the column is absent,
which the source always guards with a `in df.columns` test or alignment). -/
def getCol (row : Row) (name : String) : Val :=
  match row.find? (fun p => p.1 = name) with
  | some p => p.2
  | none => none

/-- `df['gender'].map({'Female': 0, 'Male': 1})` on the single cell: an unmapped
value becomes NaN. -/
def mapFemaleMale (v : String) : Val :=
  if v = "Female" then some 0 else if v = "Male" then some 1 else none

/-- `.map({'Yes': 1, 'No': 0})` on the single cell: an unmapped value becomes NaN. -/
def mapYesNo (v : String) : Val :=
  if v = "Yes" then some 1 else if v = "No" then some 0 else none

/-- `.replace(sentinel, 'No')` on the single cell. -/
def replaceSentinel (sentinel v : String) : String :=
  if v = sentinel then "No" else v

/-- `df['Contract'].map({'Month-to-month': 0, 'One year': 1, 'Two year': 2})`. -/
def mapContract (v : String) : Val :=
  if v = "Month-to-month" then some 0
  else if v = "One year" then some 1
  else if v = "Two year" then some 2
  else none

/-- `pd.get_dummies` restricted to one column of a one-row frame, with
`drop_first=True, dtype=int`: the categories present in the column are exactly
the single value it holds; `drop_first` drops the first category, so no dummy
column survives. -/
def getDummiesRow (colName : String) (value : String) : List (String × ℚ) :=
  let categories := [value]
  (categories.drop 1).map (fun c => (colName ++ "_" ++ c, if value = c then (1 : ℚ) else 0))

/-- `1 if name in df.columns and df[name].iloc[0] == 1 else 0` over the dummy
columns produced by `get_dummies`. -/
def hasFlag (dummies : List (String × ℚ)) (name : String) : ℚ :=
  match dummies.find? (fun p => p.1 = name) with
  | some p => if p.2 = 1 then 1 else 0
  | none => 0

/-- Python/pandas scalar addition where NaN propagates. -/
def oadd (x y : Val) : Val :=
  match x, y with
  | some a, some b => some (a + b)
  | _, _ => none

/-- Python/pandas scalar `x == c` where `NaN == c` is `False`. -/
def pdEq (x : Val) (c : ℚ) : Bool :=
  match x with
  | some v => decide (v = c)
  | none => false

/-- Python/pandas scalar `x <= c` where `NaN <= c` is `False`. -/
def pdLe (x : Val) (c : ℚ) : Bool :=
  match x with
  | some v => decide (v ≤ c)
  | none => false

/-- Map over a possibly-NaN cell (NaN propagates, as in `NaN / (t+1)`). -/
def omap (f : ℚ → ℚ) (x : Val) : Val :=
  match x with
  | some v => some (f v)
  | none => none

/-- The fitted scaler artifact: an opaque `transform` over the three numeric
columns `(tenure, MonthlyCharges, TotalCharges)`. -/
structure FittedScaler where
  transform : ℚ × ℚ × ℚ → ℚ × ℚ × ℚ

/-- The identity scaler, used to evaluate the pipeline at concrete inputs. -/
def idScaler : FittedScaler := ⟨fun v => v⟩

/-- The raw attribute record, one customer, as built by `src/app.py` (the dict
passed to `pd.DataFrame([input_dict])`).  Categorical cells are the raw strings;
numeric cells are `Option ℚ` (`none` = a value `pd.to_numeric` raises on). -/
structure RawRecord where
  Contract : String
  InternetService : String
  tenure : Option ℚ
  MonthlyCharges : Option ℚ
  TotalCharges : Option ℚ
  PaymentMethod : String
  PaperlessBilling : String
  OnlineSecurity : String
  TechSupport : String
  gender : String
  SeniorCitizen : Option ℚ
  Partner : String
  Dependents : String
  PhoneService : String
  MultipleLines : String
  OnlineBackup : String
  DeviceProtection : String
  StreamingTV : String
  StreamingMovies : String

/-- Expected columns from training, in the exact order of
`src/preprocessing.py` lines 151-164. -/
def expected_columns : List String :=
  ["gender", "SeniorCitizen", "Partner", "Dependents", "tenure",
   "PhoneService", "MultipleLines", "OnlineSecurity", "OnlineBackup",
   "DeviceProtection", "TechSupport", "StreamingTV", "StreamingMovies",
   "Contract", "PaperlessBilling", "MonthlyCharges", "TotalCharges",
   "IsNewCustomer", "IsEstablished", "IsLoyalCustomer",
   "ChargePerTenureMonth", "IsHighSpender", "ChargeTenureRatio",
   "TotalServices", "ServiceDensity", "HasMinimalServices",
   "HighRiskProfile", "SeniorNoSupport", "SingleNoFamily",
   "NewHighSpender", "PaperlessElectronicCheck", "HasAutoPay",
   "FiberNoAddons", "InternetService_Fiber optic", "InternetService_No",
   "PaymentMethod_Credit card (automatic)", "PaymentMethod_Electronic check",
   "PaymentMethod_Mailed check"]

/-- `for col in expected_columns: if col not in df.columns: df[col] = 0`
(preprocessing.py lines 167-169): append each missing expected column with 0. -/
def addMissing (row : Row) : Row :=
  expected_columns.foldl
    (fun acc c => if hasCol acc c then acc else acc ++ [(c, some 0)]) row

/-- `df[cols]`: select the named columns, in the given order. -/
def selectCols (row : Row) (cols : List String) : Row :=
  cols.map (fun c => (c, getCol row c))

/-- Step 7 of `preprocess_input` (lines 147-172): fill missing expected columns
with 0, then reorder to the expected schema (dropping anything else). -/
def alignColumns (row : Row) : Row :=
  selectCols (addMissing row) expected_columns

/-- Steps 1-6 of `preprocess_input` (lines 10-144) on the one-row frame, after
`pd.to_numeric` has produced the four numeric values `t` (tenure), `mc`
(MonthlyCharges), `tc` (TotalCharges), `sc` (SeniorCitizen): binary encoding,
no-service normalization, ordinal Contract, one-hot with `drop_first`, derived
features, scaling. -/
def encodeRow (r : RawRecord) (t mc tc sc : ℚ) (scaler : FittedScaler) : Row :=
  -- 1. BINARY ENCODING
  let gender := mapFemaleMale r.gender
  let partner := mapYesNo r.Partner
  let dependents := mapYesNo r.Dependents
  let phoneService := mapYesNo r.PhoneService
  let paperlessBilling := mapYesNo r.PaperlessBilling
  -- 2. HANDLE "NO SERVICE" CATEGORIES, then encode to binary
  let multipleLines := mapYesNo (replaceSentinel "No phone service" r.MultipleLines)
  let onlineSecurity := mapYesNo (replaceSentinel "No internet service" r.OnlineSecurity)
  let onlineBackup := mapYesNo (replaceSentinel "No internet service" r.OnlineBackup)
  let deviceProtection := mapYesNo (replaceSentinel "No internet service" r.DeviceProtection)
  let techSupport := mapYesNo (replaceSentinel "No internet service" r.TechSupport)
  let streamingTV := mapYesNo (replaceSentinel "No internet service" r.StreamingTV)
  let streamingMovies := mapYesNo (replaceSentinel "No internet service" r.StreamingMovies)
  -- 3. ORDINAL ENCODING (Contract)
  let contract := mapContract r.Contract
  -- 4. ONE-HOT ENCODING (single-row get_dummies with drop_first=True)
  let dummies := getDummiesRow "InternetService" r.InternetService
      ++ getDummiesRow "PaymentMethod" r.PaymentMethod
  -- 5. FEATURE ENGINEERING
  -- Tenure-based features
  let isNewCustomer : ℚ := if t ≤ 12 then 1 else 0
  let isEstablished : ℚ := if 12 < t ∧ t ≤ 24 then 1 else 0
  let isLoyalCustomer : ℚ := if 48 < t then 1 else 0
  -- Charge-based features
  let chargePerTenureMonth : ℚ := tc / (t + 1)
  let isHighSpender : ℚ := if 70 < mc then 1 else 0
  let chargeTenureRatio : ℚ := mc / (t + 1)
  -- Service bundle features
  let has_internet_no : ℚ := hasFlag dummies "InternetService_No"
  let totalServices : Val :=
    oadd (oadd (oadd (oadd (oadd (oadd (oadd phoneService
      (some (1 - has_internet_no))) onlineSecurity) onlineBackup)
      deviceProtection) techSupport) streamingTV) streamingMovies
  let serviceDensity : Val := omap (fun v => v / (t + 1)) totalServices
  let hasMinimalServices : ℚ := if pdLe totalServices 2 then 1 else 0
  -- High-risk profiles
  let has_fiber : ℚ := hasFlag dummies "InternetService_Fiber optic"
  let has_echeck : ℚ := hasFlag dummies "PaymentMethod_Electronic check"
  let highRiskProfile : ℚ :=
    if pdEq contract 0 && decide (has_fiber = 1) && decide (has_echeck = 1) then 1 else 0
  let seniorNoSupport : ℚ := if sc = 1 ∧ pdEq techSupport 0 then 1 else 0
  let singleNoFamily : ℚ := if pdEq partner 0 ∧ pdEq dependents 0 then 1 else 0
  let newHighSpender : ℚ := if t ≤ 12 ∧ 70 < mc then 1 else 0
  -- Payment & billing features
  let paperlessElectronicCheck : ℚ :=
    if pdEq paperlessBilling 1 ∧ has_echeck = 1 then 1 else 0
  let has_bank : ℚ := hasFlag dummies "PaymentMethod_Bank transfer (automatic)"
  let has_cc : ℚ := hasFlag dummies "PaymentMethod_Credit card (automatic)"
  let hasAutoPay : ℚ := if has_bank = 1 ∨ has_cc = 1 then 1 else 0
  -- Internet service quality
  let fiberNoAddons : ℚ :=
    if has_fiber = 1 ∧ pdEq onlineSecurity 0 ∧ pdEq techSupport 0 then 1 else 0
  -- 6. SCALING (applied to exactly tenure, MonthlyCharges, TotalCharges)
  let scaled := scaler.transform (t, mc, tc)
  [("Contract", contract),
   ("tenure", some scaled.1),
   ("MonthlyCharges", some scaled.2.1),
   ("TotalCharges", some scaled.2.2),
   ("PaperlessBilling", paperlessBilling),
   ("OnlineSecurity", onlineSecurity),
   ("TechSupport", techSupport),
   ("gender", gender),
   ("SeniorCitizen", some sc),
   ("Partner", partner),
   ("Dependents", dependents),
   ("PhoneService", phoneService),
   ("MultipleLines", multipleLines),
   ("OnlineBackup", onlineBackup),
   ("DeviceProtection", deviceProtection),
   ("StreamingTV", streamingTV),
   ("StreamingMovies", streamingMovies)]
  ++ dummies.map (fun p => (p.1, some p.2))
  ++ [("IsNewCustomer", some isNewCustomer),
      ("IsEstablished", some isEstablished),
      ("IsLoyalCustomer", some isLoyalCustomer),
      ("ChargePerTenureMonth", some chargePerTenureMonth),
      ("IsHighSpender", some isHighSpender),
      ("ChargeTenureRatio", some chargeTenureRatio),
      ("TotalServices", totalServices),
      ("ServiceDensity", serviceDensity),
      ("HasMinimalServices", some hasMinimalServices),
      ("HighRiskProfile", some highRiskProfile),
      ("SeniorNoSupport", some seniorNoSupport),
      ("SingleNoFamily", some singleNoFamily),
      ("NewHighSpender", some newHighSpender),
      ("PaperlessElectronicCheck", some paperlessElectronicCheck),
      ("HasAutoPay", some hasAutoPay),
      ("FiberNoAddons", some fiberNoAddons)]

/-- Steps 1-6 of `preprocess_input`: `none` models the `pd.to_numeric` exception
raised on a non-numeric cell (preprocessing.py lines 61-64), which in the source
happens before any derived feature is computed. -/
def preprocess_mid (r : RawRecord) (scaler : FittedScaler) : Option Row :=
  match r.tenure, r.MonthlyCharges, r.TotalCharges, r.SeniorCitizen with
  | some t, some mc, some tc, some sc => some (encodeRow r t mc tc sc scaler)
  | _, _, _, _ => none

/-- `preprocess_input(input_df, scaler)` (preprocessing.py lines 5-173):
the full pipeline; `Except.error` models the `pd.to_numeric` exception. -/
def preprocess_input (r : RawRecord) (scaler : FittedScaler) : Except String Row :=
  match preprocess_mid r scaler with
  | some row => .ok (alignColumns row)
  | none => .error "Unable to parse string to numeric"

/-- `will_churn = 1 if churn_probability >= threshold else 0` (app.py line 261). -/
def will_churn (churn_probability threshold : ℚ) : ℤ :=
  if threshold ≤ churn_probability then 1 else 0

/-- The tiered risk label of the submitted handler (app.py lines 308-319):
`churn_probability >= 0.7` is CRITICAL/HIGH, `>= 0.4` MEDIUM, otherwise LOW. -/
def risk_tier (churn_probability : ℚ) : String :=
  if 7 / 10 ≤ churn_probability then "HIGH"
  else if 2 / 5 ≤ churn_probability then "MEDIUM"
  else "LOW"

/-- Overwrite one column's value in place (`df[cols] = ...` on a present column). -/
def updCol (row : Row) (name : String) (v : Val) : Row :=
  row.map (fun p => if p.1 = name then (name, v) else p)

/-- The value the source's `TotalServices` sum takes on the one-row frame:
the `InternetService_No` dummy column never survives `get_dummies` with
`drop_first=True` on a single row, so the internet-presence slot contributes
1 whatever `InternetService` is. -/
def rawTotalServices (r : RawRecord) : Val :=
  oadd (oadd (oadd (oadd (oadd (oadd (oadd (mapYesNo r.PhoneService) (some 1))
    (mapYesNo (replaceSentinel "No internet service" r.OnlineSecurity)))
    (mapYesNo (replaceSentinel "No internet service" r.OnlineBackup)))
    (mapYesNo (replaceSentinel "No internet service" r.DeviceProtection)))
    (mapYesNo (replaceSentinel "No internet service" r.TechSupport)))
    (mapYesNo (replaceSentinel "No internet service" r.StreamingTV)))
    (mapYesNo (replaceSentinel "No internet service" r.StreamingMovies))

/-- The aligned output row of `preprocess_input` in closed form (proved equal
to `alignColumns (encodeRow ...)` below): 38 columns in the expected order. -/
def alignedRow (r : RawRecord) (t mc tc sc : ℚ) (s : FittedScaler) : Row :=
  [("gender", mapFemaleMale r.gender),
   ("SeniorCitizen", some sc),
   ("Partner", mapYesNo r.Partner),
   ("Dependents", mapYesNo r.Dependents),
   ("tenure", some (s.transform (t, mc, tc)).1),
   ("PhoneService", mapYesNo r.PhoneService),
   ("MultipleLines", mapYesNo (replaceSentinel "No phone service" r.MultipleLines)),
   ("OnlineSecurity", mapYesNo (replaceSentinel "No internet service" r.OnlineSecurity)),
   ("OnlineBackup", mapYesNo (replaceSentinel "No internet service" r.OnlineBackup)),
   ("DeviceProtection", mapYesNo (replaceSentinel "No internet service" r.DeviceProtection)),
   ("TechSupport", mapYesNo (replaceSentinel "No internet service" r.TechSupport)),
   ("StreamingTV", mapYesNo (replaceSentinel "No internet service" r.StreamingTV)),
   ("StreamingMovies", mapYesNo (replaceSentinel "No internet service" r.StreamingMovies)),
   ("Contract", mapContract r.Contract),
   ("PaperlessBilling", mapYesNo r.PaperlessBilling),
   ("MonthlyCharges", some (s.transform (t, mc, tc)).2.1),
   ("TotalCharges", some (s.transform (t, mc, tc)).2.2),
   ("IsNewCustomer", some (if t ≤ 12 then 1 else 0)),
   ("IsEstablished", some (if 12 < t ∧ t ≤ 24 then 1 else 0)),
   ("IsLoyalCustomer", some (if 48 < t then 1 else 0)),
   ("ChargePerTenureMonth", some (tc / (t + 1))),
   ("IsHighSpender", some (if 70 < mc then 1 else 0)),
   ("ChargeTenureRatio", some (mc / (t + 1))),
   ("TotalServices", rawTotalServices r),
   ("ServiceDensity", omap (fun v => v / (t + 1)) (rawTotalServices r)),
   ("HasMinimalServices", some (if pdLe (rawTotalServices r) 2 then 1 else 0)),
   ("HighRiskProfile", some 0),
   ("SeniorNoSupport",
     some (if sc = 1 ∧ pdEq (mapYesNo (replaceSentinel "No internet service" r.TechSupport)) 0
       then 1 else 0)),
   ("SingleNoFamily",
     some (if pdEq (mapYesNo r.Partner) 0 ∧ pdEq (mapYesNo r.Dependents) 0 then 1 else 0)),
   ("NewHighSpender", some (if t ≤ 12 ∧ 70 < mc then 1 else 0)),
   ("PaperlessElectronicCheck", some 0),
   ("HasAutoPay", some 0),
   ("FiberNoAddons", some 0),
   ("InternetService_Fiber optic", some 0),
   ("InternetService_No", some 0),
   ("PaymentMethod_Credit card (automatic)", some 0),
   ("PaymentMethod_Electronic check", some 0),
   ("PaymentMethod_Mailed check", some 0)]

/-- A record matching all three high-risk conditions (the end-to-end scenario
of the spec): Month-to-month, Fiber optic, Electronic check, tenure 3,
MonthlyCharges 95, TotalCharges 285. -/
def sampleHighRisk : RawRecord :=
  { Contract := "Month-to-month", InternetService := "Fiber optic",
    tenure := some 3, MonthlyCharges := some 95, TotalCharges := some 285,
    PaymentMethod := "Electronic check", PaperlessBilling := "Yes",
    OnlineSecurity := "No", TechSupport := "No",
    gender := "Female", SeniorCitizen := some 0, Partner := "No", Dependents := "No",
    PhoneService := "Yes", MultipleLines := "No", OnlineBackup := "No",
    DeviceProtection := "No", StreamingTV := "No", StreamingMovies := "No" }

/-- A record with no internet service: phone only, all internet add-ons carry
the "No internet service" sentinel (as app.py builds them). -/
def sampleNoInternet : RawRecord :=
  { Contract := "One year", InternetService := "No",
    tenure := some 12, MonthlyCharges := some 20, TotalCharges := some 240,
    PaymentMethod := "Mailed check", PaperlessBilling := "No",
    OnlineSecurity := "No internet service", TechSupport := "No internet service",
    gender := "Male", SeniorCitizen := some 0, Partner := "No", Dependents := "No",
    PhoneService := "Yes", MultipleLines := "No",
    OnlineBackup := "No internet service", DeviceProtection := "No internet service",
    StreamingTV := "No internet service", StreamingMovies := "No internet service" }

/-- The spec's derived-feature example: tenure 12, MonthlyCharges 70,
TotalCharges 840, baseline categories everywhere. -/
def sampleExample : RawRecord :=
  { Contract := "Month-to-month", InternetService := "DSL",
    tenure := some 12, MonthlyCharges := some 70, TotalCharges := some 840,
    PaymentMethod := "Bank transfer (automatic)", PaperlessBilling := "Yes",
    OnlineSecurity := "No", TechSupport := "No",
    gender := "Female", SeniorCitizen := some 0, Partner := "No", Dependents := "No",
    PhoneService := "Yes", MultipleLines := "No", OnlineBackup := "No",
    DeviceProtection := "No", StreamingTV := "No", StreamingMovies := "No" }

/-- `sampleExample` with a gender value outside the documented enumeration. -/
def sampleBadGender : RawRecord := { sampleExample with gender := "Nonbinary" }

/-- `sampleExample` with a tenure cell `pd.to_numeric` cannot parse. -/
def sampleBadTenure : RawRecord := { sampleExample with tenure := none }

/-- A non-trivial scaler, used to witness scaler-independence. -/
def shiftScaler : FittedScaler :=
  ⟨fun v => (v.1 + 1, v.2.1 + 2, v.2.2 + 3)⟩

/-- `preprocess_mid` at a record whose four numeric cells parse. -/
theorem preprocess_mid_eq (r : RawRecord) (s : FittedScaler) (t mc tc sc : ℚ)
    (h1 : r.tenure = some t) (h2 : r.MonthlyCharges = some mc)
    (h3 : r.TotalCharges = some tc) (h4 : r.SeniorCitizen = some sc) :
    preprocess_mid r s = some (encodeRow r t mc tc sc s) := by
  simp only [preprocess_mid, h1, h2, h3, h4]

/-- `preprocess_input` at a record whose four numeric cells parse. -/
theorem preprocess_input_eq (r : RawRecord) (s : FittedScaler) (t mc tc sc : ℚ)
    (h1 : r.tenure = some t) (h2 : r.MonthlyCharges = some mc)
    (h3 : r.TotalCharges = some tc) (h4 : r.SeniorCitizen = some sc) :
    preprocess_input r s = .ok (alignColumns (encodeRow r t mc tc sc s)) := by
  simp only [preprocess_input, preprocess_mid_eq r s t mc tc sc h1 h2 h3 h4]

/-! Generic lemmas about the column operations. -/

theorem hasCol_iff_find? (row : Row) (c : String) :
    hasCol row c = (row.find? (fun p => p.1 = c)).isSome := by
  rw [Bool.eq_iff_iff]
  simp [hasCol, List.any_eq_true, List.find?_isSome]

theorem getCol_cons (n : String) (v : Val) (row : Row) (c : String) :
    getCol ((n, v) :: row) c = if n = c then v else getCol row c := by
  by_cases h : n = c
  · simp [getCol, List.find?_cons, h]
  · simp [getCol, List.find?_cons, h]

theorem hasCol_append (row₁ row₂ : Row) (c : String) :
    hasCol (row₁ ++ row₂) c = (hasCol row₁ c || hasCol row₂ c) := by
  simp [hasCol, List.any_append]

theorem getCol_append (row₁ row₂ : Row) (c : String) :
    getCol (row₁ ++ row₂) c = if hasCol row₁ c then getCol row₁ c else getCol row₂ c := by
  rw [hasCol_iff_find?]
  cases h : row₁.find? (fun p => p.1 = c) with
  | none => simp [getCol, List.find?_append, h, Option.or]
  | some p => simp [getCol, List.find?_append, h, Option.or]

theorem addMissing_foldl_preserve (cols : List String) (row : Row) (c : String)
    (h : hasCol row c = true) :
    getCol (cols.foldl
      (fun acc c' => if hasCol acc c' then acc else acc ++ [(c', some 0)]) row) c
    = getCol row c := by
  induction cols generalizing row with
  | nil => rfl
  | cons a rest ih =>
    simp only [List.foldl_cons]
    by_cases ha : hasCol row a = true
    · rw [if_pos ha]; exact ih row h
    · have h' : hasCol (row ++ [(a, some 0)]) c = true := by
        rw [hasCol_append, h, Bool.true_or]
      rw [if_neg ha, ih _ h', getCol_append, if_pos h]

theorem addMissing_foldl_absent (cols : List String) (row : Row) (c : String)
    (hmem : c ∈ cols) (habs : hasCol row c = false) :
    getCol (cols.foldl
      (fun acc c' => if hasCol acc c' then acc else acc ++ [(c', some 0)]) row) c
    = some 0 := by
  induction cols generalizing row with
  | nil => cases hmem
  | cons a rest ih =>
    simp only [List.foldl_cons]
    by_cases hca : c = a
    · subst hca
      rw [if_neg (by simp [habs]),
        addMissing_foldl_preserve rest _ c (by simp [hasCol_append, hasCol]),
        getCol_append, if_neg (by simp [habs])]
      simp [getCol, List.find?]
    · have hmem' : c ∈ rest := by
        rcases List.mem_cons.mp hmem with h | h
        · exact absurd h hca
        · exact h
      have hext : hasCol (row ++ [(a, some 0)]) c = false := by
        rw [hasCol_append, habs, Bool.false_or]
        simp only [hasCol, List.any_cons, List.any_nil, Bool.or_false,
          decide_eq_false_iff_not]
        exact fun hac => hca hac.symm
      by_cases ha : hasCol row a = true
      · rw [if_pos ha]; exact ih row hmem' habs
      · rw [if_neg ha]
        exact ih _ hmem' hext

theorem selectCols_cons (row : Row) (a : String) (cols : List String) :
    selectCols row (a :: cols) = (a, getCol row a) :: selectCols row cols := rfl

theorem selectCols_map_fst (row : Row) (cols : List String) :
    (selectCols row cols).map Prod.fst = cols := by
  induction cols with
  | nil => rfl
  | cons a rest ih => simp only [selectCols_cons, List.map_cons, ih]

theorem getCol_selectCols (row : Row) (cols : List String) (c : String) (h : c ∈ cols) :
    getCol (selectCols row cols) c = getCol row c := by
  induction cols with
  | nil => cases h
  | cons a rest ih =>
    rw [selectCols_cons, getCol_cons]
    by_cases hca : a = c
    · rw [if_pos hca, hca]
    · have hmem' : c ∈ rest := by
        rcases List.mem_cons.mp h with h' | h'
        · exact absurd h'.symm hca
        · exact h'
      rw [if_neg hca]
      exact ih hmem'

theorem mem_of_hasCol_selectCols (row : Row) (cols : List String) (c : String)
    (h : hasCol (selectCols row cols) c = true) : c ∈ cols := by
  simp only [hasCol, selectCols, List.any_eq_true, List.mem_map, decide_eq_true_eq] at h
  obtain ⟨p, ⟨c', hc', hp⟩, hfst⟩ := h
  subst hp
  simp only at hfst
  exact hfst ▸ hc'

/-- Every column of the aligned output is an expected column: anything else
was dropped by the `df[expected_columns]` selection. -/
theorem alignColumns_extra_dropped (row : Row) (c : String)
    (h : hasCol (alignColumns row) c = true) : c ∈ expected_columns :=
  mem_of_hasCol_selectCols _ _ _ h

/-- The aligned output's column names are exactly the expected schema. -/
theorem alignColumns_map_fst (row : Row) :
    (alignColumns row).map Prod.fst = expected_columns :=
  selectCols_map_fst _ _

/-- An expected column absent from the intermediate frame is filled with 0. -/
theorem alignColumns_absent (row : Row) (c : String)
    (hmem : c ∈ expected_columns) (habs : hasCol row c = false) :
    getCol (alignColumns row) c = some 0 := by
  rw [alignColumns, getCol_selectCols _ _ _ hmem, addMissing]
  exact addMissing_foldl_absent _ _ _ hmem habs

set_option maxRecDepth 40000 in
set_option maxHeartbeats 1000000 in
/-- Master lemma: the full pipeline's aligned output in closed form. -/
theorem alignColumns_encodeRow (r : RawRecord) (s : FittedScaler) (t mc tc sc : ℚ) :
    alignColumns (encodeRow r t mc tc sc s) = alignedRow r t mc tc sc s := by
  simp [alignColumns, addMissing, selectCols, encodeRow, getDummiesRow,
    expected_columns, hasCol, getCol, hasFlag, alignedRow, rawTotalServices]

theorem getCol_updCol_ne (row : Row) (n : String) (v : Val) (c : String) (h : c ≠ n) :
    getCol (updCol row n v) c = getCol row c := by
  induction row with
  | nil => rfl
  | cons p rest ih =>
    rcases p with ⟨pn, pv⟩
    simp only [updCol] at ih ⊢
    rw [List.map_cons]
    by_cases hn : pn = n
    · rw [if_pos hn, getCol_cons, getCol_cons, if_neg (Ne.symm h),
        if_neg (fun hc => h (hn ▸ hc.symm))]
      exact ih
    · rw [if_neg hn, getCol_cons, getCol_cons]
      by_cases hc : pn = c
      · rw [if_pos hc, if_pos hc]
      · rw [if_neg hc, if_neg hc]
        exact ih

set_option maxRecDepth 40000 in
set_option maxHeartbeats 1000000 in
/-- Changing the scaler only rewrites the three scaled columns of the output. -/
theorem alignedRow_scaler_frame (r : RawRecord) (t mc tc sc : ℚ) (s s' : FittedScaler) :
    alignedRow r t mc tc sc s =
      updCol (updCol (updCol (alignedRow r t mc tc sc s')
        "tenure" (some (s.transform (t, mc, tc)).1))
        "MonthlyCharges" (some (s.transform (t, mc, tc)).2.1))
        "TotalCharges" (some (s.transform (t, mc, tc)).2.2) := by
  simp [alignedRow, updCol]

/-- Any unparseable numeric cell makes the pipeline raise (via `pd.to_numeric`),
before any derived feature is computed. -/
theorem preprocess_mid_none (r : RawRecord) (s : FittedScaler)
    (h : r.tenure = none ∨ r.MonthlyCharges = none ∨ r.TotalCharges = none ∨
      r.SeniorCitizen = none) :
    preprocess_mid r s = none := by
  unfold preprocess_mid
  split
  · rcases h with h | h | h | h <;> simp_all
  · rfl

/-- The accepted output of the pipeline, in closed form. -/
theorem out_eq_alignedRow (r : RawRecord) (s : FittedScaler) (t mc tc sc : ℚ)
    (h1 : r.tenure = some t) (h2 : r.MonthlyCharges = some mc)
    (h3 : r.TotalCharges = some tc) (h4 : r.SeniorCitizen = some sc)
    (out : Row) (hout : preprocess_input r s = .ok out) :
    out = alignedRow r t mc tc sc s := by
  rw [preprocess_input_eq r s t mc tc sc h1 h2 h3 h4, Except.ok.injEq] at hout
  rw [← hout, alignColumns_encodeRow]

/-! The claims. -/

/-- Claim C1: for every input record the pipeline accepts, the output of
`preprocess_input` has exactly 38 columns, named in the exact documented
schema order; every expected column absent from the intermediate frame
(`encodeRow`, steps 1-6) is filled with 0, and any column outside the
expected schema is dropped. -/
theorem C1_schema_alignment (r : RawRecord) (s : FittedScaler) (t mc tc sc : ℚ)
    (h1 : r.tenure = some t) (h2 : r.MonthlyCharges = some mc)
    (h3 : r.TotalCharges = some tc) (h4 : r.SeniorCitizen = some sc)
    (out : Row) (hout : preprocess_input r s = .ok out) :
    out.map Prod.fst = expected_columns ∧
    out.length = 38 ∧
    (∀ c ∈ expected_columns, hasCol (encodeRow r t mc tc sc s) c = false →
      getCol out c = some 0) ∧
    (∀ c : String, hasCol out c = true → c ∈ expected_columns) := by
  rw [preprocess_input_eq r s t mc tc sc h1 h2 h3 h4, Except.ok.injEq] at hout
  rw [← hout]
  refine ⟨alignColumns_map_fst _, ?_, ?_, fun c h => alignColumns_extra_dropped _ _ h⟩
  · have hfst := alignColumns_map_fst (encodeRow r t mc tc sc s)
    calc (alignColumns (encodeRow r t mc tc sc s)).length
        = ((alignColumns (encodeRow r t mc tc sc s)).map Prod.fst).length :=
          (List.length_map _ _).symm
      _ = expected_columns.length := by rw [hfst]
      _ = 38 := rfl
  · exact fun c hmem habs => alignColumns_absent _ _ hmem habs

/-- Witness for C1 at a concrete record and the identity scaler. -/
theorem C1_schema_alignment_witness :
    (alignColumns (encodeRow sampleExample 12 70 840 0 idScaler)).map Prod.fst
      = expected_columns ∧
    (alignColumns (encodeRow sampleExample 12 70 840 0 idScaler)).length = 38 ∧
    getCol (alignColumns (encodeRow sampleExample 12 70 840 0 idScaler))
      "InternetService_No" = some 0 :=
  ⟨(C1_schema_alignment sampleExample idScaler 12 70 840 0 rfl rfl rfl rfl _ rfl).1,
   (C1_schema_alignment sampleExample idScaler 12 70 840 0 rfl rfl rfl rfl _ rfl).2.1,
   (C1_schema_alignment sampleExample idScaler 12 70 840 0 rfl rfl rfl rfl _ rfl).2.2.1
     "InternetService_No" (by decide) (by decide)⟩

/-- Claim C2 (refuted, code evaluated at the failing input): the record has the
non-baseline categories InternetService = Fiber optic and PaymentMethod =
Electronic check, yet the corresponding indicator columns of the output are 0,
not 1: `pd.get_dummies(..., drop_first=True)` on the single-row frame drops the
only dummy column it generates for each categorical. -/
theorem C2_code_eval :
    sampleHighRisk.InternetService = "Fiber optic" ∧
    sampleHighRisk.PaymentMethod = "Electronic check" ∧
    preprocess_input sampleHighRisk idScaler
      = .ok (alignColumns (encodeRow sampleHighRisk 3 95 285 0 idScaler)) ∧
    getCol (alignColumns (encodeRow sampleHighRisk 3 95 285 0 idScaler))
      "InternetService_Fiber optic" = some 0 ∧
    getCol (alignColumns (encodeRow sampleHighRisk 3 95 285 0 idScaler))
      "PaymentMethod_Electronic check" = some 0 :=
  ⟨rfl, rfl, rfl, by decide, by decide⟩

/-- Claim C3 (refuted, code evaluated at the failing input): the record
satisfies all three risk conditions (Contract Month-to-month, Fiber optic,
Electronic check), yet the output's HighRiskProfile is 0, because the
`InternetService_Fiber optic` and `PaymentMethod_Electronic check` dummy
columns never exist on the single-row frame, so `has_fiber = has_echeck = 0`. -/
theorem C3_code_eval :
    sampleHighRisk.Contract = "Month-to-month" ∧
    sampleHighRisk.InternetService = "Fiber optic" ∧
    sampleHighRisk.PaymentMethod = "Electronic check" ∧
    preprocess_input sampleHighRisk idScaler
      = .ok (alignColumns (encodeRow sampleHighRisk 3 95 285 0 idScaler)) ∧
    getCol (alignColumns (encodeRow sampleHighRisk 3 95 285 0 idScaler))
      "HighRiskProfile" = some 0 :=
  ⟨rfl, rfl, rfl, rfl, by decide⟩

/-- Claim C4 is false as stated: a record whose gender is outside
{Female, Male} is not rejected — `preprocess_input` succeeds, the value is
silently mapped to NaN (`none`), and that undefined value reaches the output
vector handed to the classifier. -/
theorem C4_counterexample :
    sampleBadGender.gender = "Nonbinary" ∧
    preprocess_input sampleBadGender idScaler
      = .ok (alignColumns (encodeRow sampleBadGender 12 70 840 0 idScaler)) ∧
    getCol (alignColumns (encodeRow sampleBadGender 12 70 840 0 idScaler))
      "gender" = none :=
  ⟨rfl, rfl, by decide⟩

/-- Claim C4 (amended): a numeric cell that cannot be parsed as a number makes
the transform raise (the `pd.to_numeric` error, placed before any derived
feature is computed), but a categorical value outside its documented
enumeration is NOT rejected: it is silently encoded as missing (NaN) and
propagates to the output vector (shown for `gender`). -/
theorem C4_amended :
    (∀ (r : RawRecord) (s : FittedScaler),
      r.tenure = none ∨ r.MonthlyCharges = none ∨ r.TotalCharges = none ∨
        r.SeniorCitizen = none →
      preprocess_input r s = .error "Unable to parse string to numeric") ∧
    (∀ (r : RawRecord) (s : FittedScaler) (t mc tc sc : ℚ),
      r.tenure = some t → r.MonthlyCharges = some mc → r.TotalCharges = some tc →
      r.SeniorCitizen = some sc → r.gender ≠ "Female" → r.gender ≠ "Male" →
      preprocess_input r s = .ok (alignColumns (encodeRow r t mc tc sc s)) ∧
      getCol (alignColumns (encodeRow r t mc tc sc s)) "gender" = none) := by
  constructor
  · intro r s h
    rw [preprocess_input, preprocess_mid_none r s h]
  · intro r s t mc tc sc h1 h2 h3 h4 hgf hgm
    refine ⟨preprocess_input_eq r s t mc tc sc h1 h2 h3 h4, ?_⟩
    rw [alignColumns_encodeRow]
    simp [alignedRow, getCol_cons, mapFemaleMale, hgf, hgm]

/-- Witness for C4 (amended) at concrete records. -/
theorem C4_amended_witness :
    preprocess_input sampleBadTenure idScaler
      = .error "Unable to parse string to numeric" ∧
    getCol (alignColumns (encodeRow sampleBadGender 12 70 840 0 idScaler))
      "gender" = none :=
  ⟨C4_amended.1 sampleBadTenure idScaler (Or.inl rfl),
   (C4_amended.2 sampleBadGender idScaler 12 70 840 0 rfl rfl rfl rfl
     (by decide) (by decide)).2⟩

/-- Claim C5 (refuted, code evaluated at the failing input): the record has
InternetService = "No", phone service only, and every internet add-on at its
sentinel, so the claim's 8-slot count (internet presence = 1 iff
InternetService ≠ "No") is 1, but the code outputs TotalServices = 2: the
`InternetService_No` dummy column never exists on the single-row frame, so
`has_internet_no = 0` and the internet-presence slot always contributes 1. -/
theorem C5_code_eval :
    sampleNoInternet.InternetService = "No" ∧
    sampleNoInternet.PhoneService = "Yes" ∧
    preprocess_input sampleNoInternet idScaler
      = .ok (alignColumns (encodeRow sampleNoInternet 12 20 240 0 idScaler)) ∧
    getCol (alignColumns (encodeRow sampleNoInternet 12 20 240 0 idScaler))
      "TotalServices" = some 2 := by
  refine ⟨rfl, rfl, rfl, ?_⟩
  rw [alignColumns_encodeRow]
  simp [alignedRow, getCol_cons, rawTotalServices, sampleNoInternet,
    replaceSentinel, mapYesNo, oadd]
  norm_num

/-- Claim C6: the scaler is applied to exactly the three columns tenure,
MonthlyCharges, TotalCharges, after every derived feature was computed from the
raw values: the three scaled cells carry `scaler.transform` of the raw numbers,
the ratio features and threshold flags are functions of the raw inputs only,
and every other column is unchanged under any change of scaler. -/
theorem C6_scaling_frame (r : RawRecord) (s : FittedScaler) (t mc tc sc : ℚ)
    (h1 : r.tenure = some t) (h2 : r.MonthlyCharges = some mc)
    (h3 : r.TotalCharges = some tc) (h4 : r.SeniorCitizen = some sc)
    (out : Row) (hout : preprocess_input r s = .ok out) :
    getCol out "tenure" = some (s.transform (t, mc, tc)).1 ∧
    getCol out "MonthlyCharges" = some (s.transform (t, mc, tc)).2.1 ∧
    getCol out "TotalCharges" = some (s.transform (t, mc, tc)).2.2 ∧
    getCol out "ChargePerTenureMonth" = some (tc / (t + 1)) ∧
    getCol out "ChargeTenureRatio" = some (mc / (t + 1)) ∧
    getCol out "ServiceDensity" = omap (fun v => v / (t + 1)) (rawTotalServices r) ∧
    getCol out "IsHighSpender" = some (if 70 < mc then 1 else 0) ∧
    (∀ (s' : FittedScaler) (c : String),
      c ≠ "tenure" → c ≠ "MonthlyCharges" → c ≠ "TotalCharges" →
      getCol out c = getCol (alignColumns (encodeRow r t mc tc sc s')) c) := by
  rw [out_eq_alignedRow r s t mc tc sc h1 h2 h3 h4 out hout]
  refine ⟨?_, ?_, ?_, ?_, ?_, ?_, ?_, ?_⟩
  · simp [alignedRow, getCol_cons]
  · simp [alignedRow, getCol_cons]
  · simp [alignedRow, getCol_cons]
  · simp [alignedRow, getCol_cons]
  · simp [alignedRow, getCol_cons]
  · simp [alignedRow, getCol_cons]
  · simp [alignedRow, getCol_cons]
  · intro s' c hn1 hn2 hn3
    rw [alignColumns_encodeRow, alignedRow_scaler_frame r t mc tc sc s s',
      getCol_updCol_ne _ _ _ _ hn3, getCol_updCol_ne _ _ _ _ hn2,
      getCol_updCol_ne _ _ _ _ hn1]

/-- The pipeline's closed-form output at `sampleExample` (hypothesis feeder
for witnesses). -/
theorem sampleExample_ok :
    preprocess_input sampleExample idScaler
      = .ok (alignedRow sampleExample 12 70 840 0 idScaler) := by
  rw [preprocess_input_eq sampleExample idScaler 12 70 840 0 rfl rfl rfl rfl,
    alignColumns_encodeRow]

/-- The pipeline's closed-form output at `sampleHighRisk` (hypothesis feeder
for witnesses). -/
theorem sampleHighRisk_ok :
    preprocess_input sampleHighRisk idScaler
      = .ok (alignedRow sampleHighRisk 3 95 285 0 idScaler) := by
  rw [preprocess_input_eq sampleHighRisk idScaler 3 95 285 0 rfl rfl rfl rfl,
    alignColumns_encodeRow]

/-- Witness for C6 at a concrete record, the identity scaler against a
shifted scaler. -/
theorem C6_scaling_frame_witness :
    getCol (alignedRow sampleExample 12 70 840 0 idScaler) "tenure"
      = some (idScaler.transform (12, 70, 840)).1 ∧
    getCol (alignedRow sampleExample 12 70 840 0 idScaler) "ChargePerTenureMonth"
      = some (840 / (12 + 1)) ∧
    getCol (alignedRow sampleExample 12 70 840 0 idScaler) "gender"
      = getCol (alignColumns (encodeRow sampleExample 12 70 840 0 shiftScaler))
        "gender" :=
  ⟨(C6_scaling_frame sampleExample idScaler 12 70 840 0 rfl rfl rfl rfl _
      sampleExample_ok).1,
   (C6_scaling_frame sampleExample idScaler 12 70 840 0 rfl rfl rfl rfl _
      sampleExample_ok).2.2.2.1,
   (C6_scaling_frame sampleExample idScaler 12 70 840 0 rfl rfl rfl rfl _
      sampleExample_ok).2.2.2.2.2.2.2 shiftScaler "gender"
      (by decide) (by decide) (by decide)⟩

/-- Claim C7: ChargePerTenureMonth = TotalCharges/(tenure+1), ChargeTenureRatio
= MonthlyCharges/(tenure+1), IsHighSpender = 1 iff MonthlyCharges > 70 strictly
(70 itself gives 0); the +1 denominator makes both ratios well-defined at
tenure 0; and the spec's example record (tenure 12, MonthlyCharges 70,
TotalCharges 840) yields 840/13, 70/13, IsHighSpender 0, IsNewCustomer 1. -/
theorem C7_charge_features (r : RawRecord) (s : FittedScaler) (t mc tc sc : ℚ)
    (h1 : r.tenure = some t) (h2 : r.MonthlyCharges = some mc)
    (h3 : r.TotalCharges = some tc) (h4 : r.SeniorCitizen = some sc)
    (out : Row) (hout : preprocess_input r s = .ok out) :
    getCol out "ChargePerTenureMonth" = some (tc / (t + 1)) ∧
    getCol out "ChargeTenureRatio" = some (mc / (t + 1)) ∧
    getCol out "IsHighSpender" = some (if 70 < mc then 1 else 0) ∧
    (mc = 70 → getCol out "IsHighSpender" = some 0) ∧
    (t = 0 → getCol out "ChargePerTenureMonth" = some tc ∧
      getCol out "ChargeTenureRatio" = some mc) ∧
    (getCol (alignedRow sampleExample 12 70 840 0 idScaler) "ChargePerTenureMonth"
        = some (840 / 13) ∧
      getCol (alignedRow sampleExample 12 70 840 0 idScaler) "ChargeTenureRatio"
        = some (70 / 13) ∧
      getCol (alignedRow sampleExample 12 70 840 0 idScaler) "IsHighSpender"
        = some 0 ∧
      getCol (alignedRow sampleExample 12 70 840 0 idScaler) "IsNewCustomer"
        = some 1) := by
  rw [out_eq_alignedRow r s t mc tc sc h1 h2 h3 h4 out hout]
  refine ⟨?_, ?_, ?_, ?_, ?_, ?_, ?_, ?_, ?_⟩
  · simp [alignedRow, getCol_cons]
  · simp [alignedRow, getCol_cons]
  · simp [alignedRow, getCol_cons]
  · intro hmc; subst hmc; simp [alignedRow, getCol_cons]
  · intro ht; subst ht; simp [alignedRow, getCol_cons]
  · simp [alignedRow, getCol_cons]; norm_num
  · simp [alignedRow, getCol_cons]; norm_num
  · simp [alignedRow, getCol_cons]
  · simp [alignedRow, getCol_cons]

/-- Witness for C7 at the spec's example record. -/
theorem C7_charge_features_witness :
    getCol (alignedRow sampleExample 12 70 840 0 idScaler) "ChargePerTenureMonth"
      = some (840 / (12 + 1)) ∧
    getCol (alignedRow sampleExample 12 70 840 0 idScaler) "IsHighSpender"
      = some 0 :=
  ⟨(C7_charge_features sampleExample idScaler 12 70 840 0 rfl rfl rfl rfl _
      sampleExample_ok).1,
   (C7_charge_features sampleExample idScaler 12 70 840 0 rfl rfl rfl rfl _
      sampleExample_ok).2.2.2.1 rfl⟩

/-- Claim C8: IsNewCustomer = 1 iff tenure ≤ 12, IsEstablished = 1 iff
12 < tenure ≤ 24, IsLoyalCustomer = 1 iff tenure > 48; at most one flag is 1,
and every tenure in (24, 48] sets all three to 0. -/
theorem C8_tenure_flags (r : RawRecord) (s : FittedScaler) (t mc tc sc : ℚ)
    (h1 : r.tenure = some t) (h2 : r.MonthlyCharges = some mc)
    (h3 : r.TotalCharges = some tc) (h4 : r.SeniorCitizen = some sc)
    (out : Row) (hout : preprocess_input r s = .ok out) :
    getCol out "IsNewCustomer" = some (if t ≤ 12 then 1 else 0) ∧
    getCol out "IsEstablished" = some (if 12 < t ∧ t ≤ 24 then 1 else 0) ∧
    getCol out "IsLoyalCustomer" = some (if 48 < t then 1 else 0) ∧
    (t ≤ 12 → getCol out "IsNewCustomer" = some 1 ∧
      getCol out "IsEstablished" = some 0 ∧ getCol out "IsLoyalCustomer" = some 0) ∧
    ¬(getCol out "IsNewCustomer" = some 1 ∧ getCol out "IsEstablished" = some 1) ∧
    ¬(getCol out "IsNewCustomer" = some 1 ∧ getCol out "IsLoyalCustomer" = some 1) ∧
    ¬(getCol out "IsEstablished" = some 1 ∧ getCol out "IsLoyalCustomer" = some 1) ∧
    (24 < t → t ≤ 48 → getCol out "IsNewCustomer" = some 0 ∧
      getCol out "IsEstablished" = some 0 ∧ getCol out "IsLoyalCustomer" = some 0) := by
  rw [out_eq_alignedRow r s t mc tc sc h1 h2 h3 h4 out hout]
  have e1 : getCol (alignedRow r t mc tc sc s) "IsNewCustomer"
      = some (if t ≤ 12 then 1 else 0) := by simp [alignedRow, getCol_cons]
  have e2 : getCol (alignedRow r t mc tc sc s) "IsEstablished"
      = some (if 12 < t ∧ t ≤ 24 then 1 else 0) := by simp [alignedRow, getCol_cons]
  have e3 : getCol (alignedRow r t mc tc sc s) "IsLoyalCustomer"
      = some (if 48 < t then 1 else 0) := by simp [alignedRow, getCol_cons]
  refine ⟨e1, e2, e3, ?_, ?_, ?_, ?_, ?_⟩ <;> simp only [e1, e2, e3]
  · intro h
    refine ⟨by rw [if_pos h], by rw [if_neg (by rintro ⟨h12, _⟩; linarith)],
      by rw [if_neg (by intro h48; linarith)]⟩
  · split_ifs <;> norm_num <;> linarith
  · split_ifs <;> norm_num <;> linarith
  · split_ifs <;> norm_num <;> linarith
  · intro h24 h48
    refine ⟨by rw [if_neg (by intro h12; linarith)],
      by rw [if_neg (by rintro ⟨_, h24'⟩; linarith)],
      by rw [if_neg (by intro h48'; linarith)]⟩

/-- Witness for C8 at the spec's example record (tenure 12). -/
theorem C8_tenure_flags_witness :
    getCol (alignedRow sampleExample 12 70 840 0 idScaler) "IsNewCustomer"
      = some 1 ∧
    getCol (alignedRow sampleExample 12 70 840 0 idScaler) "IsEstablished"
      = some 0 ∧
    getCol (alignedRow sampleExample 12 70 840 0 idScaler) "IsLoyalCustomer"
      = some 0 :=
  (C8_tenure_flags sampleExample idScaler 12 70 840 0 rfl rfl rfl rfl _
    sampleExample_ok).2.2.2.1 (by norm_num)

/-- Claim C9: the risk tier shown by the handler is LOW for probability < 0.4,
MEDIUM for 0.4 ≤ p < 0.7, HIGH for p ≥ 0.7, while the binary decision equals
(p ≥ threshold); the tier is a function of the probability alone, computed
independently of the threshold-based decision. -/
theorem C9_risk_tiering (p threshold : ℚ) (h0 : 0 ≤ p) (hp1 : p ≤ 1) :
    (risk_tier p = "LOW" ↔ p < 2 / 5) ∧
    (risk_tier p = "MEDIUM" ↔ 2 / 5 ≤ p ∧ p < 7 / 10) ∧
    (risk_tier p = "HIGH" ↔ 7 / 10 ≤ p) ∧
    (will_churn p threshold = 1 ↔ threshold ≤ p) ∧
    (will_churn p threshold = 0 ↔ p < threshold) := by
  unfold risk_tier will_churn
  refine ⟨?_, ?_, ?_, ?_, ?_⟩ <;> split_ifs <;> simp_all <;> linarith

/-- Witness for C9 at probability 1/2 and threshold 3/10. -/
theorem C9_risk_tiering_witness :
    (risk_tier (1 / 2) = "LOW" ↔ (1 : ℚ) / 2 < 2 / 5) ∧
    (risk_tier (1 / 2) = "MEDIUM" ↔ (2 : ℚ) / 5 ≤ 1 / 2 ∧ (1 : ℚ) / 2 < 7 / 10) ∧
    (risk_tier (1 / 2) = "HIGH" ↔ (7 : ℚ) / 10 ≤ 1 / 2) ∧
    (will_churn (1 / 2) (3 / 10) = 1 ↔ (3 : ℚ) / 10 ≤ 1 / 2) ∧
    (will_churn (1 / 2) (3 / 10) = 0 ↔ (1 : ℚ) / 2 < 3 / 10) :=
  C9_risk_tiering (1 / 2) (3 / 10) (by norm_num) (by norm_num)

/-- Claim C10: on the (always single-row) input frame, `pd.get_dummies` with
`drop_first=True` drops the only dummy column generated per categorical, so
all five one-hot indicator columns of the final output are 0 and HasAutoPay is
0, for every accepted input record. -/
theorem C10_single_row_dummies (r : RawRecord) (s : FittedScaler) (t mc tc sc : ℚ)
    (h1 : r.tenure = some t) (h2 : r.MonthlyCharges = some mc)
    (h3 : r.TotalCharges = some tc) (h4 : r.SeniorCitizen = some sc)
    (out : Row) (hout : preprocess_input r s = .ok out) :
    getCol out "InternetService_Fiber optic" = some 0 ∧
    getCol out "InternetService_No" = some 0 ∧
    getCol out "PaymentMethod_Credit card (automatic)" = some 0 ∧
    getCol out "PaymentMethod_Electronic check" = some 0 ∧
    getCol out "PaymentMethod_Mailed check" = some 0 ∧
    getCol out "HasAutoPay" = some 0 := by
  rw [out_eq_alignedRow r s t mc tc sc h1 h2 h3 h4 out hout]
  refine ⟨?_, ?_, ?_, ?_, ?_, ?_⟩ <;> simp [alignedRow, getCol_cons]

/-- Witness for C10 at a record with non-baseline categories (Fiber optic,
Electronic check). -/
theorem C10_single_row_dummies_witness :
    getCol (alignedRow sampleHighRisk 3 95 285 0 idScaler)
      "InternetService_Fiber optic" = some 0 ∧
    getCol (alignedRow sampleHighRisk 3 95 285 0 idScaler) "HasAutoPay" = some 0 :=
  ⟨(C10_single_row_dummies sampleHighRisk idScaler 3 95 285 0 rfl rfl rfl rfl _
      sampleHighRisk_ok).1,
   (C10_single_row_dummies sampleHighRisk idScaler 3 95 285 0 rfl rfl rfl rfl _
      sampleHighRisk_ok).2.2.2.2.2⟩

end Churn
